/-
Verification of the self-healing DBMS decision/healing/review pipeline.

This file gives a shallow embedding of the core logic of the repository:
the healing rulebook (`app/rules/healing_rulebook.py`), the safety guards
(`app/safety/safety_guards.py`), the healing-simulation policy of the
healing engine (`app/engines/healing_engine.py`), the admin-review priority
function (`app/engines/admin_review_engine.py`), and the batch-processing
loops of the three engines.  Python floats and Decimals are modelled as
rationals, Python dictionaries with fixed key sets as structures with
optional fields, and fallible code as `Except`/`Option`.  Database writes
performed by the record functions are modelled as explicit event traces.
-/
import Mathlib

namespace SelfHealing

/-- A single-quote character, used to assemble message strings faithfully. -/
def sq : String := String.singleton (Char.ofNat 39)

/-! ## Rulebook data model (`app/rules/healing_rulebook.py`) -/

/-- `IssueType` enum: the five supported DBMS issue types. -/
inductive IssueType where
  | DEADLOCK
  | SLOW_QUERY
  | CONNECTION_OVERLOAD
  | TRANSACTION_FAILURE
  | LOCK_WAIT
deriving DecidableEq, Repr

/-- The `.value` string of an `IssueType` member. -/
def IssueType.value : IssueType → String
  | .DEADLOCK => "DEADLOCK"
  | .SLOW_QUERY => "SLOW_QUERY"
  | .CONNECTION_OVERLOAD => "CONNECTION_OVERLOAD"
  | .TRANSACTION_FAILURE => "TRANSACTION_FAILURE"
  | .LOCK_WAIT => "LOCK_WAIT"

/-- All members of the `IssueType` enum, in declaration order. -/
def IssueType.all : List IssueType :=
  [.DEADLOCK, .SLOW_QUERY, .CONNECTION_OVERLOAD, .TRANSACTION_FAILURE, .LOCK_WAIT]

/-- `DecisionType` enum. -/
inductive DecisionType where
  | AUTO_HEAL
  | ADMIN_REVIEW
  | ESCALATED
deriving DecidableEq, Repr

/-- `ActionType` enum. -/
inductive ActionType where
  | ROLLBACK_TRANSACTION
  | RETRY_OPERATION
  | NONE
  | KILL_CONNECTION
  | OPTIMIZE_QUERY
deriving DecidableEq, Repr

/-- `ExecutionMode` enum. -/
inductive ExecutionMode where
  | AUTOMATIC
  | MANUAL
  | SIMULATED
deriving DecidableEq, Repr

/-- `ExecutionStatus` enum. -/
inductive ExecutionStatus where
  | SUCCESS
  | FAILED
  | PENDING
  | SIMULATED
deriving DecidableEq, Repr

/-- The `.value` string of an `ExecutionStatus` member. -/
def ExecutionStatus.value : ExecutionStatus → String
  | .SUCCESS => "SUCCESS"
  | .FAILED => "FAILED"
  | .PENDING => "PENDING"
  | .SIMULATED => "SIMULATED"

/-- The `conditions` dictionary attached to a rule.  In the source it is a
Python dict holding at most the keys `max_retries` (an int) and
`timeout_threshold` (an int number of seconds); absent keys are `none`. -/
structure Conditions where
  max_retries : Option ℤ := none
  timeout_threshold : Option ℚ := none
deriving DecidableEq, Repr

/-- The `issue_type` field of a `HealingRule`.  Rules in the static table
carry an `IssueType` enum member; the synthetic rule built for an unknown
issue type carries the raw string instead (the source stores the original
string argument in that field). -/
inductive RuleIssueField where
  | known (t : IssueType)
  | raw (s : String)
deriving DecidableEq, Repr

/-- `HealingRule` named tuple. Confidence is a `Decimal` in the source,
modelled as an exact rational. -/
structure HealingRule where
  issue_type : RuleIssueField
  decision_type : DecisionType
  action_type : ActionType
  execution_mode : ExecutionMode
  reason : String
  confidence : ℚ
  conditions : Option Conditions := none
deriving DecidableEq, Repr

namespace HealingRulebook

/-- `HealingRulebook.MAX_RETRY_COUNT`. -/
def MAX_RETRY_COUNT : ℤ := 3

/-- `HealingRulebook.LOCK_WAIT_TIMEOUT_THRESHOLD` (seconds). -/
def LOCK_WAIT_TIMEOUT_THRESHOLD : ℚ := 30

/-- `HealingRulebook.CONNECTION_THRESHOLD`. -/
def CONNECTION_THRESHOLD : ℤ := 100

/-- `HealingRulebook.RULES`: the official rule set, transcribed rule by rule
from the static list in the source. -/
def RULES : List HealingRule :=
  [ { issue_type := .known .DEADLOCK
      decision_type := .AUTO_HEAL
      action_type := .ROLLBACK_TRANSACTION
      execution_mode := .SIMULATED
      reason := "InnoDB already chooses deadlock victim; rollback is safe and deterministic"
      confidence := mkRat 95 100
      conditions := none },
    { issue_type := .known .SLOW_QUERY
      decision_type := .ADMIN_REVIEW
      action_type := .NONE
      execution_mode := .MANUAL
      reason := "Slow queries require query analysis, index optimization, or schema redesign"
      confidence := 1
      conditions := none },
    { issue_type := .known .CONNECTION_OVERLOAD
      decision_type := .ADMIN_REVIEW
      action_type := .NONE
      execution_mode := .MANUAL
      reason := "Connection limits require capacity planning; killing connections may break applications"
      confidence := 1
      conditions := none },
    { issue_type := .known .TRANSACTION_FAILURE
      decision_type := .AUTO_HEAL
      action_type := .RETRY_OPERATION
      execution_mode := .SIMULATED
      reason := "Transient transaction failures can be safely retried with exponential backoff"
      confidence := mkRat 80 100
      conditions := some { max_retries := some MAX_RETRY_COUNT } },
    { issue_type := .known .LOCK_WAIT
      decision_type := .AUTO_HEAL
      action_type := .RETRY_OPERATION
      execution_mode := .SIMULATED
      reason := "Short lock waits can be retried; long waits indicate design issues"
      confidence := mkRat 70 100
      conditions := some { timeout_threshold := some LOCK_WAIT_TIMEOUT_THRESHOLD } } ]

end HealingRulebook

/-- Python `str.upper()` restricted to ASCII letters (the issue-type
vocabulary is ASCII). -/
def pyUpper (s : String) : String :=
  ⟨s.data.map (fun c => if ('a' ≤ c ∧ c ≤ 'z') then Char.ofNat (c.toNat - 32) else c)⟩

/-- The `IssueType(str)` enum constructor: looks an exact string up among the
members and fails (raises `ValueError` in the source) otherwise. -/
def issueTypeOfString (s : String) : Option IssueType :=
  if s = "DEADLOCK" then some .DEADLOCK
  else if s = "SLOW_QUERY" then some .SLOW_QUERY
  else if s = "CONNECTION_OVERLOAD" then some .CONNECTION_OVERLOAD
  else if s = "TRANSACTION_FAILURE" then some .TRANSACTION_FAILURE
  else if s = "LOCK_WAIT" then some .LOCK_WAIT
  else none

/-- The `context` dictionary passed to `get_rule_for_issue`, modelling a
non-empty Python dict; the keys the rulebook reads are `retry_count` and
`timeout_seconds`, absent keys default to 0 via `dict.get`. -/
structure RuleContext where
  retry_count : Option ℤ := none
  timeout_seconds : Option ℚ := none
deriving DecidableEq, Repr

namespace HealingRulebook

/-- `HealingRulebook._check_conditions`: the two sequential early-return
checks of the source (`retry_count >= max_retries`, then
`timeout_seconds > timeout_threshold`) rendered as a conjunction; a check
whose key is absent from the conditions dict passes. -/
def check_conditions (rule : HealingRule) (context : RuleContext) : Bool :=
  match rule.conditions with
  | none => true
  | some conds =>
    (match conds.max_retries with
     | some mr => ¬ (context.retry_count.getD 0 ≥ mr)
     | none => true) &&
    (match conds.timeout_threshold with
     | some tt => ¬ (context.timeout_seconds.getD 0 > tt)
     | none => true)

/-- The synthetic rule returned for an unknown issue type. -/
def unknownIssueRule (issue_type : String) : HealingRule :=
  { issue_type := .raw issue_type
    decision_type := .ADMIN_REVIEW
    action_type := .NONE
    execution_mode := .MANUAL
    reason := "Unknown issue type " ++ sq ++ issue_type ++ sq ++ " requires manual analysis"
    confidence := 1
    conditions := none }

/-- The synthetic rule returned when a conditional rule's conditions fail. -/
def conditionsNotMetRule (issue_enum : IssueType) (issue_type : String) : HealingRule :=
  { issue_type := .known issue_enum
    decision_type := .ADMIN_REVIEW
    action_type := .NONE
    execution_mode := .MANUAL
    reason := "Conditions not met for auto-healing " ++ issue_type
    confidence := 1
    conditions := none }

/-- The synthetic rule returned when no rule matches a declared issue type. -/
def noRuleFoundRule (issue_enum : IssueType) (issue_type : String) : HealingRule :=
  { issue_type := .known issue_enum
    decision_type := .ADMIN_REVIEW
    action_type := .NONE
    execution_mode := .MANUAL
    reason := "No rule defined for issue type " ++ sq ++ issue_type ++ sq
    confidence := 1
    conditions := none }

/-- The `for rule in cls.RULES` loop body of `get_rule_for_issue`. -/
def findRule (issue_enum : IssueType) (issue_type : String)
    (context : Option RuleContext) : List HealingRule → Option HealingRule
  | [] => none
  | rule :: rest =>
    if rule.issue_type = .known issue_enum then
      match rule.conditions, context with
      | some _, some ctx =>
        if ¬ check_conditions rule ctx then
          some (conditionsNotMetRule issue_enum issue_type)
        else some rule
      | _, _ => some rule
    else findRule issue_enum issue_type context rest

/-- `HealingRulebook.get_rule_for_issue`.  The `context` argument is `none`
when the caller passes `None` (or a falsy empty dict). -/
def get_rule_for_issue (issue_type : String) (context : Option RuleContext) :
    HealingRule :=
  match issueTypeOfString (pyUpper issue_type) with
  | none => unknownIssueRule issue_type
  | some issue_enum =>
    match findRule issue_enum issue_type context RULES with
    | some rule => rule
    | none => noRuleFoundRule issue_enum issue_type

end HealingRulebook

/-- The `issue_types - rule_types` set difference of `validate_rulebook`:
declared issue types with no rule in the list. -/
def missingRules (rules : List HealingRule) : List IssueType :=
  IssueType.all.filter (fun t => ¬ rules.any (fun r => r.issue_type = .known t))

/-- `validate_rulebook`, generalised over the rule list it checks (the
source checks `HealingRulebook.RULES`).  Each failed `assert` becomes an
`Except.error` carrying the assertion message. -/
def validateRulebookOf (rules : List HealingRule) : Except String Unit :=
  if ¬ (missingRules rules).isEmpty then
    .error ("Missing rules for issue types: " ++
      String.intercalate ", " ((missingRules rules).map IssueType.value))
  else
    match rules.find? (fun r => ¬ (0 ≤ r.confidence ∧ r.confidence ≤ 1)) with
    | some r => .error ("Invalid confidence for rule: " ++ toString r.confidence)
    | none =>
      match rules.find? (fun r =>
          r.decision_type = .AUTO_HEAL ∧ ¬ r.execution_mode = .SIMULATED) with
      | some _ => .error "AUTO_HEAL rule must be SIMULATED"
      | none => .ok ()

/-- `validate_rulebook()` as executed once at module import: any violation
aborts initialization with an `AssertionError`. -/
def validate_rulebook : Except String Unit :=
  validateRulebookOf HealingRulebook.RULES

/-! ## Safety guards (`app/safety/safety_guards.py`) -/

/-- `SafetyViolationType` enum. -/
inductive SafetyViolationType where
  | DANGEROUS_SQL
  | UNSAFE_ACTION
  | DIRECT_EXECUTION
  | OS_COMMAND
  | CONNECTION_KILL
  | UNAUTHORIZED_WRITE
deriving DecidableEq, Repr

/-- The `SafetyViolation` exception, carrying its violation type and
message (the `context` dict payload is omitted from the model). -/
structure SafetyViolation where
  violation_type : SafetyViolationType
  message : String
deriving DecidableEq, Repr

namespace SafetyGuards

/-- `SafetyGuards.DANGEROUS_ACTIONS`. -/
def DANGEROUS_ACTIONS : List String :=
  ["KILL_CONNECTION", "ROLLBACK_TRANSACTION", "RETRY_OPERATION",
   "RESTART_SERVICE", "FLUSH_TABLES", "RESET_SLAVE"]

/-- `SafetyGuards.validate_healing_action(action_type, execution_mode)`:
either returns normally or raises a typed `SafetyViolation`. -/
def validate_healing_action (action_type execution_mode : String) :
    Except SafetyViolation Unit :=
  if action_type ∈ DANGEROUS_ACTIONS ∧ execution_mode ≠ "SIMULATED" then
    .error { violation_type := .UNSAFE_ACTION
             message := "Dangerous action " ++ sq ++ action_type ++ sq ++
               " must be SIMULATED, got " ++ sq ++ execution_mode ++ sq }
  else if action_type = "KILL_CONNECTION" ∧ execution_mode ≠ "SIMULATED" then
    .error { violation_type := .CONNECTION_KILL
             message := "Connection termination must be simulated only" }
  else if action_type = "ROLLBACK_TRANSACTION" ∧
      ¬ (execution_mode = "SIMULATED" ∨ execution_mode = "MANUAL") then
    .error { violation_type := .UNSAFE_ACTION
             message := "Transaction rollback must be simulated or manual only" }
  else .ok ()

/-- The `authorized_writes` dictionary of `validate_database_write`,
as a lookup from table name to the list of allowed operations. -/
def authorizedWrites (table : String) : Option (List String) :=
  if table = "decision_log" then some ["INSERT"]
  else if table = "healing_actions" then some ["INSERT"]
  else if table = "admin_reviews" then some ["INSERT", "UPDATE"]
  else if table = "learning_history" then some ["INSERT"]
  else none

/-- `SafetyGuards.validate_database_write(operation, table)`.  The final
`detected_issues` check of the source is kept even though it is unreachable
(that table is already outside `authorized_writes`). -/
def validate_database_write (operation table : String) :
    Except SafetyViolation Unit :=
  match authorizedWrites table with
  | none =>
    .error { violation_type := .UNAUTHORIZED_WRITE
             message := "Write operations not authorized for table: " ++ table }
  | some allowed =>
    if operation ∉ allowed then
      .error { violation_type := .UNAUTHORIZED_WRITE
               message := "Operation " ++ sq ++ operation ++ sq ++
                 " not authorized for table " ++ sq ++ table ++ sq }
    else if table = "detected_issues" then
      .error { violation_type := .UNAUTHORIZED_WRITE
               message := "Write operations forbidden on detected_issues table" }
    else .ok ()

/-- `SafetyGuards.validate_os_command(command)`: always raises. -/
def validate_os_command (command : String) : Except SafetyViolation Unit :=
  .error { violation_type := .OS_COMMAND
           message := "OS command execution is strictly forbidden: " ++ command }

/-- The `forbidden_operations` list of `validate_direct_execution`. -/
def forbiddenOperations : List String :=
  ["DIRECT_ROLLBACK", "DIRECT_KILL", "DIRECT_RESTART",
   "DIRECT_FLUSH", "DIRECT_RESET", "DIRECT_SHUTDOWN"]

/-- `SafetyGuards.validate_direct_execution(operation)`: raises only when
the operation is in the forbidden list, otherwise returns normally. -/
def validate_direct_execution (operation : String) :
    Except SafetyViolation Unit :=
  if operation ∈ forbiddenOperations then
    .error { violation_type := .DIRECT_EXECUTION
             message := "Direct execution forbidden: " ++ operation }
  else .ok ()

end SafetyGuards

/-! ## Healing engine simulation (`app/engines/healing_engine.py`)

The simulation helpers call Python's global `random` module (`random.seed`
followed by one `random.random()` draw) and `hashlib.md5`.  Those library
functions are modelled abstractly by a `SimModel`: the Mersenne-Twister
state is an opaque `Nat`, `mtSeed` is the state installed by `random.seed`,
`mtNext` draws one number and steps the state, and `md5hex8` is
`int(hashlib.md5(s.encode()).hexdigest()[:8], 16)`.  The engine functions
thread the ambient generator state explicitly, so that independence from it
(the code re-seeds before every draw) is a provable property and not an
assumption.  `fmt2` and `fmtF` model Python float formatting (`:.2f` and
`str`) in detail strings. -/

/-- Abstract model of the library randomness and hashing used by the
healing engine. -/
structure SimModel where
  mtSeed : Nat → Nat
  mtNext : Nat → ℚ × Nat
  md5hex8 : String → Nat
  fmt2 : ℚ → String
  fmtF : ℚ → String

/-- A decision row as fetched for the healing engine (the fields the
simulation helpers read; `dict.get` defaults map to `Option`). -/
structure DecisionRec where
  decision_id : String
  issue_type : String
  confidence_at_decision : Option ℚ := none
  raw_metric_value : Option ℚ := none
deriving DecidableEq, Repr

/-- The result dictionary returned by every `_simulate_*` helper. -/
structure SimResult where
  status : String
  details : String
deriving DecidableEq, Repr

/-- Python `s[-n:]`: the last `min(n, len s)` characters. -/
def lastN (s : String) (n : Nat) : String :=
  ⟨s.data.drop (s.data.length - n)⟩

/-- Value of a hexadecimal digit character, if it is one. -/
def hexDigitVal (c : Char) : Option Nat :=
  if '0' ≤ c ∧ c ≤ '9' then some (c.toNat - 48)
  else if 'a' ≤ c ∧ c ≤ 'f' then some (c.toNat - 87)
  else if 'A' ≤ c ∧ c ≤ 'F' then some (c.toNat - 55)
  else none

/-- Python `int(s, 16)` on a plain hexadecimal string: fails (raises
`ValueError`) on the empty string or on any non-hex character. -/
def parseHex (s : String) : Option Nat :=
  if s.data.isEmpty then none
  else s.data.foldl
    (fun acc c => match acc, hexDigitVal c with
      | some a, some d => some (a * 16 + d)
      | _, _ => none)
    (some 0)

/-- Python `int(x)` on a float: truncation toward zero. -/
def pyInt (q : ℚ) : ℤ := if 0 ≤ q then ⌊q⌋ else ⌈q⌉

namespace HealingEngine

/-- `HealingEngine._get_simulated_retry_count`: derives a stable retry count
in {0, 1, 2} from the MD5 hash of the decision id. -/
def get_simulated_retry_count (M : SimModel) (decision_id : String) : Nat :=
  M.md5hex8 decision_id % 3

/-- `HealingEngine._simulate_rollback_transaction`.  Returns `none` when the
hex parse of the decision-id tail raises; otherwise the simulation result
and the generator state left behind. -/
def simulate_rollback_transaction (M : SimModel) (σ : Nat)
    (decision : DecisionRec) : Option (SimResult × Nat) :=
  let confidence := decision.confidence_at_decision.getD 0
  let success_probability : ℚ :=
    if confidence ≥ mkRat 9 10 then mkRat 95 100
    else if confidence ≥ mkRat 8 10 then mkRat 85 100
    else mkRat 70 100
  match parseHex (lastN decision.decision_id 8) with
  | none => none
  | some seed =>
    let σ1 := M.mtSeed seed
    let (draw, σ2) := M.mtNext σ1
    if draw < success_probability then
      some ({ status := "SUCCESS"
              details := "SIMULATED: Transaction rollback successful (confidence: " ++
                M.fmt2 confidence ++ ")" }, σ2)
    else
      some ({ status := "FAILED"
              details := "SIMULATED: Transaction rollback failed - would require manual intervention" },
            σ2)

/-- The backoff-and-draw branch of `_simulate_retry_operation`: the code
run when the retry count is below the max-retry constant. -/
def simulate_retry_attempt (M : SimModel) (σ : Nat) (retry_count : Nat)
    (decision : DecisionRec) : Option (SimResult × Nat) :=
  let backoff_delay := 2 ^ retry_count
  let success_probability : ℚ :=
    max (mkRat 5 10) (mkRat 9 10 - (retry_count : ℚ) * mkRat 2 10)
  match parseHex (lastN decision.decision_id 8) with
  | none => none
  | some seed =>
    let σ1 := M.mtSeed (seed + retry_count)
    let (draw, σ2) := M.mtNext σ1
    if draw < success_probability then
      some ({ status := "SUCCESS"
              details := "SIMULATED: Retry #" ++ toString (retry_count + 1) ++
                " successful after " ++ toString backoff_delay ++ "s backoff" }, σ2)
    else
      some ({ status := "FAILED"
              details := "SIMULATED: Retry #" ++ toString (retry_count + 1) ++
                " failed - will retry with " ++ toString (backoff_delay * 2) ++
                "s backoff" }, σ2)

/-- The body of `_simulate_retry_operation` after `retry_count` has been
computed (the source computes it from the decision id first; factoring it
out lets the max-retries branch be stated on its own). -/
def simulate_retry_body (M : SimModel) (σ : Nat) (retry_count : Nat)
    (decision : DecisionRec) : Option (SimResult × Nat) :=
  if (retry_count : ℤ) ≥ HealingRulebook.MAX_RETRY_COUNT then
    some ({ status := "FAILED"
            details := "SIMULATED: Max retries (" ++
              toString HealingRulebook.MAX_RETRY_COUNT ++
              ") exceeded - escalating to admin" }, σ)
  else simulate_retry_attempt M σ retry_count decision

/-- `HealingEngine._simulate_retry_operation`. -/
def simulate_retry_operation (M : SimModel) (σ : Nat)
    (decision : DecisionRec) : Option (SimResult × Nat) :=
  simulate_retry_body M σ (get_simulated_retry_count M decision.decision_id) decision

/-- `HealingEngine._simulate_kill_connection`: always SUCCESS, never draws. -/
def simulate_kill_connection (M : SimModel) (σ : Nat)
    (decision : DecisionRec) : SimResult × Nat :=
  let connection_count := pyInt (decision.raw_metric_value.getD 0)
  ({ status := "SUCCESS"
     details := "SIMULATED: Would terminate connection (current count: " ++
       toString connection_count ++ ") - NEVER actually executed" }, σ)

/-- `HealingEngine._simulate_optimize_query`: always SUCCESS, never draws. -/
def simulate_optimize_query (M : SimModel) (σ : Nat)
    (decision : DecisionRec) : SimResult × Nat :=
  let execution_time := decision.raw_metric_value.getD 0
  ({ status := "SUCCESS"
     details := "SIMULATED: Query optimization recommended (execution time: " ++
       M.fmtF execution_time ++ "s) - requires admin review" }, σ)

/-- `HealingEngine._simulate_action`: dispatch on the action type.  The
Python `else` branch (unknown action type) is dead for the enum and has no
Lean counterpart since the match is exhaustive. -/
def simulate_action (M : SimModel) (σ : Nat) (action_type : ActionType)
    (decision : DecisionRec) : Option (SimResult × Nat) :=
  match action_type with
  | .ROLLBACK_TRANSACTION => simulate_rollback_transaction M σ decision
  | .RETRY_OPERATION => simulate_retry_operation M σ decision
  | .KILL_CONNECTION => some (simulate_kill_connection M σ decision)
  | .OPTIMIZE_QUERY => some (simulate_optimize_query M σ decision)
  | .NONE =>
    some ({ status := "SUCCESS"
            details := "No action required - escalated to admin review" }, σ)

end HealingEngine

/-! ## Admin review engine (`app/engines/admin_review_engine.py`) -/

namespace AdminReviewEngine

/-- `AdminReviewEngine._determine_priority`: first-match-wins threshold
chain on the issue type and the raw metric value (`float(x) if x else 0`,
so a missing or zero metric counts as 0). -/
def determine_priority (issue_type : String) (raw_metric_value : Option ℚ) :
    String :=
  let metric_value := raw_metric_value.getD 0
  if issue_type = "TRANSACTION_FAILURE" ∨ issue_type = "CONNECTION_OVERLOAD" then
    "HIGH"
  else if issue_type = "SLOW_QUERY" ∧ metric_value > 60 then "HIGH"
  else if issue_type = "LOCK_WAIT" ∧ metric_value > 30 then "HIGH"
  else if issue_type = "SLOW_QUERY" ∧ metric_value > 10 then "MEDIUM"
  else if issue_type = "LOCK_WAIT" ∧ metric_value > 5 then "MEDIUM"
  else "LOW"

end AdminReviewEngine

/-! ## Batch processing loops

`DecisionEngine.process_new_issues`, `HealingEngine.process_auto_heal_decisions`
and `AdminReviewEngine.process_admin_review_decisions` share the same shape:
fetch the unprocessed backlog, then loop over the items with a per-item
`try/except` that appends a message to `results['errors']` and continues.
The backlog fetch is modelled as an input list, and the per-item body
(make + record, which may raise) as a step function returning
`Except String (Option α)`: `.error` models a raised exception, `.ok none`
models the "make" helper returning `None`. -/

/-- An issue row as fetched by `DecisionEngine._get_unprocessed_issues`. -/
structure IssueRec where
  issue_id : String
  issue_type : String
  raw_metric_value : Option ℚ := none
deriving DecidableEq, Repr

/-- A decision record as built by `DecisionEngine._make_decision_for_issue`
(the fields the batch loop reads). -/
structure DecisionOut where
  decision_id : String
  issue_id : String
  decision_type : String
  decision_reason : String
  confidence_at_decision : ℚ
deriving DecidableEq, Repr

/-- `results` dictionary of `DecisionEngine.process_new_issues`. -/
structure DecisionBatchResults where
  issues_processed : Nat := 0
  decisions_made : Nat := 0
  auto_heal_decisions : Nat := 0
  admin_review_decisions : Nat := 0
  errors : List String := []
  decisions : List DecisionOut := []
deriving DecidableEq, Repr

namespace DecisionEngine

/-- The `for issue in unprocessed_issues` loop of `process_new_issues`,
with the accumulated `results` threaded through. -/
def processIssuesLoop (step : IssueRec → Except String (Option DecisionOut)) :
    List IssueRec → DecisionBatchResults → DecisionBatchResults
  | [], r => r
  | issue :: rest, r =>
    match step issue with
    | .error e =>
      processIssuesLoop step rest
        { r with errors := r.errors ++
            ["Error processing issue " ++ issue.issue_id ++ ": " ++ e] }
    | .ok none => processIssuesLoop step rest r
    | .ok (some decision) =>
      processIssuesLoop step rest
        { r with
          decisions := r.decisions ++ [decision]
          decisions_made := r.decisions_made + 1
          auto_heal_decisions :=
            if decision.decision_type = "AUTO_HEAL" then
              r.auto_heal_decisions + 1
            else r.auto_heal_decisions
          admin_review_decisions :=
            if decision.decision_type = "ADMIN_REVIEW" then
              r.admin_review_decisions + 1
            else r.admin_review_decisions }

/-- `DecisionEngine.process_new_issues`, parameterised by the fetched
backlog and the per-item processing step. -/
def process_new_issues (step : IssueRec → Except String (Option DecisionOut))
    (issues : List IssueRec) : DecisionBatchResults :=
  processIssuesLoop step issues { issues_processed := issues.length }

end DecisionEngine

/-- A healing action record as built by
`HealingEngine._execute_simulated_healing_action`. -/
structure ActionRec where
  action_id : String
  decision_id : String
  action_type : String
  execution_mode : String
  executed_by : String
  execution_status : String
deriving DecidableEq, Repr

/-- `results` dictionary of `HealingEngine.process_auto_heal_decisions`. -/
structure HealingBatchResults where
  decisions_processed : Nat := 0
  actions_executed : Nat := 0
  successful_actions : Nat := 0
  failed_actions : Nat := 0
  errors : List String := []
  actions : List ActionRec := []
deriving DecidableEq, Repr

namespace HealingEngine

/-- The `for decision in auto_heal_decisions` loop of
`process_auto_heal_decisions`. -/
def processDecisionsLoop (step : DecisionRec → Except String (Option ActionRec)) :
    List DecisionRec → HealingBatchResults → HealingBatchResults
  | [], r => r
  | decision :: rest, r =>
    match step decision with
    | .error e =>
      processDecisionsLoop step rest
        { r with errors := r.errors ++
            ["Error processing decision " ++ decision.decision_id ++ ": " ++ e] }
    | .ok none => processDecisionsLoop step rest r
    | .ok (some action) =>
      processDecisionsLoop step rest
        { r with
          actions := r.actions ++ [action]
          actions_executed := r.actions_executed + 1
          successful_actions :=
            if action.execution_status = ExecutionStatus.SUCCESS.value then
              r.successful_actions + 1
            else r.successful_actions
          failed_actions :=
            if action.execution_status = ExecutionStatus.SUCCESS.value then
              r.failed_actions
            else r.failed_actions + 1 }

/-- `HealingEngine.process_auto_heal_decisions`, parameterised by the
fetched backlog and the per-item processing step. -/
def process_auto_heal_decisions
    (step : DecisionRec → Except String (Option ActionRec))
    (decisions : List DecisionRec) : HealingBatchResults :=
  processDecisionsLoop step decisions { decisions_processed := decisions.length }

end HealingEngine

/-- An admin review record as built by
`AdminReviewEngine._create_admin_review` (the fields the batch loop
reads). -/
structure ReviewRec where
  review_id : String
  decision_id : String
  admin_action : String
  override_flag : Bool
  priority : String
deriving DecidableEq, Repr

/-- `results` dictionary of
`AdminReviewEngine.process_admin_review_decisions`. -/
structure ReviewBatchResults where
  decisions_processed : Nat := 0
  reviews_created : Nat := 0
  high_priority_reviews : Nat := 0
  errors : List String := []
  reviews : List ReviewRec := []
deriving DecidableEq, Repr

namespace AdminReviewEngine

/-- The `for decision in admin_review_decisions` loop of
`process_admin_review_decisions`: a per-item `try/except` that appends an
error message and continues. -/
def processReviewsLoop (step : DecisionRec → Except String (Option ReviewRec)) :
    List DecisionRec → ReviewBatchResults → ReviewBatchResults
  | [], r => r
  | decision :: rest, r =>
    match step decision with
    | .error e =>
      processReviewsLoop step rest
        { r with errors := r.errors ++
            ["Error processing decision " ++ decision.decision_id ++ ": " ++ e] }
    | .ok none => processReviewsLoop step rest r
    | .ok (some review) =>
      processReviewsLoop step rest
        { r with
          reviews := r.reviews ++ [review]
          reviews_created := r.reviews_created + 1
          high_priority_reviews :=
            if review.priority = "HIGH" then
              r.high_priority_reviews + 1
            else r.high_priority_reviews }

/-- `AdminReviewEngine.process_admin_review_decisions`, parameterised by
the fetched backlog and the per-item processing step. -/
def process_admin_review_decisions
    (step : DecisionRec → Except String (Option ReviewRec))
    (decisions : List DecisionRec) : ReviewBatchResults :=
  processReviewsLoop step decisions { decisions_processed := decisions.length }

end AdminReviewEngine

/-! ## Mutation boundaries as event traces

`DecisionEngine._record_decision` and `HealingEngine._record_healing_action`
open a write-capable connection and execute one parameterised `INSERT`.
Their observable database/guard behaviour is modelled as the list of events
each performs, in order: an event is either a safety-guard invocation or a
row insert (with the column list of the `INSERT` statement). -/

/-- An observable event at an engine mutation boundary. -/
inductive DbEvent where
  | validateWrite (operation table : String)
  | validateHealingAct (action_type execution_mode : String)
  | insertRow (table : String) (columns : List String)
deriving DecidableEq, Repr

namespace DecisionEngine

/-- The events `DecisionEngine._record_decision` performs: a single insert
into `decision_log`, with no guard call anywhere in its body. -/
def record_decision_events (decision : DecisionOut) : List DbEvent :=
  [.insertRow "decision_log"
    ["decision_id", "issue_id", "decision_type", "decision_reason",
     "confidence_at_decision", "decided_at"]]

end DecisionEngine

namespace HealingEngine

/-- The events `HealingEngine._record_healing_action` performs: a single
insert into `healing_actions`, with no guard call anywhere in its body. -/
def record_healing_action_events (action : ActionRec) : List DbEvent :=
  [.insertRow "healing_actions"
    ["action_id", "decision_id", "action_type", "execution_mode",
     "executed_by", "execution_status", "executed_at"]]

end HealingEngine

/-! ## Theorems -/

/-- Every `IssueType` member is listed in `IssueType.all`. -/
lemma IssueType.mem_all (t : IssueType) : t ∈ IssueType.all := by
  cases t <;> simp [IssueType.all]

/-- `validateRulebookOf` succeeds exactly when the three rulebook
invariants hold: every declared issue type is covered, every confidence
lies in `[0, 1]`, and every AUTO_HEAL rule is SIMULATED.  So any violation
surfaces as an error (an aborting `AssertionError` in the source), never a
silent pass. -/
lemma validateRulebookOf_ok_iff (rules : List HealingRule) :
    validateRulebookOf rules = .ok () ↔
      ((∀ t : IssueType, ∃ r ∈ rules, r.issue_type = RuleIssueField.known t) ∧
       (∀ r ∈ rules, 0 ≤ r.confidence ∧ r.confidence ≤ 1) ∧
       (∀ r ∈ rules, r.decision_type = DecisionType.AUTO_HEAL →
          r.execution_mode = ExecutionMode.SIMULATED)) := by
  unfold validateRulebookOf
  by_cases h1 : (missingRules rules).isEmpty
  · rw [if_neg (by simpa using h1)]
    rw [List.isEmpty_iff] at h1
    rw [missingRules, List.filter_eq_nil_iff] at h1
    cases hf : rules.find? (fun r => ¬ (0 ≤ r.confidence ∧ r.confidence ≤ 1)) with
    | some r =>
      have hp0 := List.find?_some hf
      have hp := of_decide_eq_true hp0
      have hm := List.mem_of_find?_eq_some hf
      constructor
      · intro h; cases h
      · rintro ⟨-, h2, -⟩
        exact absurd (h2 r hm) hp
    | none =>
      rw [List.find?_eq_none] at hf
      cases hg : rules.find? (fun r =>
          r.decision_type = DecisionType.AUTO_HEAL ∧
            ¬ r.execution_mode = ExecutionMode.SIMULATED) with
      | some r =>
        have hp0 := List.find?_some hg
        have hp := of_decide_eq_true hp0
        have hm := List.mem_of_find?_eq_some hg
        constructor
        · intro h; cases h
        · rintro ⟨-, -, h3⟩
          exact absurd (h3 r hm hp.1) hp.2
      | none =>
        rw [List.find?_eq_none] at hg
        constructor
        · intro _
          refine ⟨fun t => ?_, fun r hr => ?_, fun r hr hah => ?_⟩
          · have := h1 t (IssueType.mem_all t)
            simp only [decide_not, Bool.not_eq_true', decide_eq_false_iff_not,
              not_not, List.any_eq_true, decide_eq_true_eq] at this
            exact this
          · have := hf r hr
            simpa using this
          · have := hg r hr
            simp only [decide_eq_true_eq, not_and, not_not] at this
            exact this hah
        · intro _; rfl
  · rw [if_pos (by simpa using h1)]
    constructor
    · intro h; cases h
    · rintro ⟨hcov, -, -⟩
      refine absurd ?_ h1
      rw [List.isEmpty_iff]
      unfold missingRules
      rw [List.filter_eq_nil_iff]
      intro t _
      obtain ⟨r, hr, hrt⟩ := hcov t
      simp only [decide_not, Bool.not_eq_true', decide_eq_false_iff_not, not_not,
        List.any_eq_true, decide_eq_true_eq]
      exact ⟨r, hr, hrt⟩

/-- **C1**: every declared issue type has a rule in the rulebook (exactly
one, in fact), every rule's confidence lies in `[0, 1]`, every AUTO_HEAL
rule has execution mode SIMULATED, and `validate_rulebook` — run once at
module load — succeeds on the shipped `RULES` while rejecting (aborting on)
any
rule list violating one of these invariants rather than ignoring it. -/
theorem rulebook_startup_invariant :
    validate_rulebook = Except.ok () ∧
    (∀ t : IssueType,
      (HealingRulebook.RULES.filter
        (fun r => r.issue_type = RuleIssueField.known t)).length = 1) ∧
    (∀ rules : List HealingRule, validateRulebookOf rules = .ok () ↔
      ((∀ t : IssueType, ∃ r ∈ rules, r.issue_type = RuleIssueField.known t) ∧
       (∀ r ∈ rules, 0 ≤ r.confidence ∧ r.confidence ≤ 1) ∧
       (∀ r ∈ rules, r.decision_type = DecisionType.AUTO_HEAL →
          r.execution_mode = ExecutionMode.SIMULATED))) := by
  refine ⟨by rfl, fun t => by cases t <;> rfl, validateRulebookOf_ok_iff⟩

/-- The priority decision table as the claim words it: per-issue-type
threshold bands, boundary values falling to the lower band. -/
def priorityClaim (issue_type : String) (metric : ℚ) : String :=
  if issue_type = "TRANSACTION_FAILURE" ∨ issue_type = "CONNECTION_OVERLOAD" then
    "HIGH"
  else if issue_type = "SLOW_QUERY" then
    if metric > 60 then "HIGH" else if metric > 10 then "MEDIUM" else "LOW"
  else if issue_type = "LOCK_WAIT" then
    if metric > 30 then "HIGH" else if metric > 5 then "MEDIUM" else "LOW"
  else "LOW"

/-- **C5**: `_determine_priority` realises exactly the claimed first-match
threshold table — TRANSACTION_FAILURE/CONNECTION_OVERLOAD are always HIGH,
SLOW_QUERY is HIGH strictly above 60 (exactly 60 gives MEDIUM), LOCK_WAIT is
HIGH strictly above 30 (exactly 30 gives MEDIUM), SLOW_QUERY above 10 and
LOCK_WAIT above 5 give MEDIUM, and every other case gives LOW. -/
theorem determine_priority_thresholds :
    (∀ issue_type raw,
      AdminReviewEngine.determine_priority issue_type raw =
        priorityClaim issue_type (raw.getD 0)) ∧
    AdminReviewEngine.determine_priority "SLOW_QUERY" (some 60) = "MEDIUM" ∧
    AdminReviewEngine.determine_priority "SLOW_QUERY" (some 61) = "HIGH" ∧
    AdminReviewEngine.determine_priority "LOCK_WAIT" (some 30) = "MEDIUM" ∧
    AdminReviewEngine.determine_priority "LOCK_WAIT" (some 31) = "HIGH" := by
  refine ⟨fun it raw => ?_, by decide, by decide, by decide, by decide⟩
  by_cases h1 : it = "TRANSACTION_FAILURE" ∨ it = "CONNECTION_OVERLOAD"
  · simp [AdminReviewEngine.determine_priority, priorityClaim, h1]
  · by_cases h2 : it = "SLOW_QUERY"
    · subst h2
      by_cases m60 : (raw.getD 0 : ℚ) > 60
      · simp [AdminReviewEngine.determine_priority, priorityClaim, h1, m60]
      · by_cases m10 : (raw.getD 0 : ℚ) > 10 <;>
          simp [AdminReviewEngine.determine_priority, priorityClaim, h1, m60, m10]
    · by_cases h3 : it = "LOCK_WAIT"
      · subst h3
        by_cases m30 : (raw.getD 0 : ℚ) > 30
        · simp [AdminReviewEngine.determine_priority, priorityClaim, h1, m30]
        · by_cases m5 : (raw.getD 0 : ℚ) > 5 <;>
            simp [AdminReviewEngine.determine_priority, priorityClaim, h1, m30, m5]
      · simp [AdminReviewEngine.determine_priority, priorityClaim, h1, h2, h3]

/-- **C6**: `validate_database_write` succeeds exactly on the fixed
allow-list {decision_log: INSERT; healing_actions: INSERT; admin_reviews:
INSERT/UPDATE; learning_history: INSERT} and raises a typed
`SafetyViolation` otherwise; it raises for every operation on
`detected_issues`, and never for `('INSERT', 'decision_log')`. -/
theorem validate_database_write_allowlist :
    (∀ operation table,
      SafetyGuards.validate_database_write operation table = .ok () ↔
        ((table = "decision_log" ∧ operation = "INSERT") ∨
         (table = "healing_actions" ∧ operation = "INSERT") ∨
         (table = "admin_reviews" ∧ (operation = "INSERT" ∨ operation = "UPDATE")) ∨
         (table = "learning_history" ∧ operation = "INSERT"))) ∧
    (∀ operation, ∃ v,
      SafetyGuards.validate_database_write operation "detected_issues" =
        .error v) ∧
    SafetyGuards.validate_database_write "INSERT" "decision_log" = .ok () := by
  refine ⟨fun op table => ?_, fun op => ⟨_, rfl⟩, rfl⟩
  by_cases h1 : table = "decision_log"
  · subst h1
    by_cases hop : op = "INSERT" <;>
      simp [SafetyGuards.validate_database_write, SafetyGuards.authorizedWrites, hop]
  · by_cases h2 : table = "healing_actions"
    · subst h2
      by_cases hop : op = "INSERT" <;>
        simp [SafetyGuards.validate_database_write, SafetyGuards.authorizedWrites, hop]
    · by_cases h3 : table = "admin_reviews"
      · subst h3
        by_cases hop1 : op = "INSERT"
        · simp [SafetyGuards.validate_database_write, SafetyGuards.authorizedWrites, hop1]
        · by_cases hop2 : op = "UPDATE" <;>
            simp [SafetyGuards.validate_database_write, SafetyGuards.authorizedWrites,
              hop1, hop2]
      · by_cases h4 : table = "learning_history"
        · subst h4
          by_cases hop : op = "INSERT" <;>
            simp [SafetyGuards.validate_database_write, SafetyGuards.authorizedWrites, hop]
        · simp [SafetyGuards.validate_database_write, SafetyGuards.authorizedWrites,
            h1, h2, h3, h4]

/-- **C7** counterexample: `validate_direct_execution` returns normally on
an operation outside the forbidden list — here the very argument the
orchestrator passes it — so it does not unconditionally fail as claimed. -/
theorem validate_direct_execution_accepts_cex :
    SafetyGuards.validate_direct_execution "DECISION_PROCESSING" = .ok () := by
  rfl

/-- **C7** (amended): `validate_os_command` unconditionally raises a typed
`SafetyViolation`, but `validate_direct_execution` raises exactly when the
operation is one of the six `DIRECT_*` forbidden operations and returns
normally on every other argument. -/
theorem os_command_and_direct_execution_guards :
    (∀ command, SafetyGuards.validate_os_command command =
      .error { violation_type := .OS_COMMAND
               message := "OS command execution is strictly forbidden: " ++ command }) ∧
    (∀ operation,
      SafetyGuards.validate_direct_execution operation = .ok () ↔
        operation ∉ SafetyGuards.forbiddenOperations) := by
  refine ⟨fun c => rfl, fun op => ?_⟩
  unfold SafetyGuards.validate_direct_execution
  by_cases h : op ∈ SafetyGuards.forbiddenOperations <;> simp [h]

/-- Whether an event is a safety-guard invocation. -/
def DbEvent.isGuard : DbEvent → Bool
  | .validateWrite _ _ => true
  | .validateHealingAct _ _ => true
  | .insertRow _ _ => false

/-- A concrete decision record, as the decision engine would build one for
a DEADLOCK issue. -/
def exampleDecisionOut : DecisionOut :=
  { decision_id := "3f2504e0-4f89-11d3-9a0c-0305e82c3301"
    issue_id := "issue-1"
    decision_type := "AUTO_HEAL"
    decision_reason := "InnoDB already chooses deadlock victim; rollback is safe and deterministic"
    confidence_at_decision := mkRat 95 100 }

/-- A concrete healing-action record, as the healing engine would build
one for the decision above. -/
def exampleActionRec : ActionRec :=
  { action_id := "7d444840-9dc0-11d1-b245-5ffdce74fad2"
    decision_id := "3f2504e0-4f89-11d3-9a0c-0305e82c3301"
    action_type := "ROLLBACK_TRANSACTION"
    execution_mode := "SIMULATED"
    executed_by := "HEALING_ENGINE"
    execution_status := "SUCCESS" }

/-- **C2** counterexample: recording a concrete decision performs no
`validateWrite` (or any guard) call, and recording a concrete healing
action performs no `validateHealingAction` (or any guard) call — the
traces of the two record functions contain no guard event at all, so the
claimed mutation-boundary checks do not happen. -/
theorem record_functions_no_guard_call_cex :
    (DecisionEngine.record_decision_events exampleDecisionOut).filter
      DbEvent.isGuard = [] ∧
    (HealingEngine.record_healing_action_events exampleActionRec).filter
      DbEvent.isGuard = [] :=
  ⟨rfl, rfl⟩

/-- **C2** (amended): the guard functions exist and enforce the stated
policies — `validateWrite` accepts INSERT into `decision_log` and
`healing_actions`, and `validateHealingAction` rejects any dangerous action
type whose mode is not SIMULATED — but the engines do not invoke them at
the mutation boundary: `_record_decision` performs exactly one INSERT into
`decision_log` and `_record_healing_action` exactly one INSERT into
`healing_actions`, with no guard call in either trace. -/
theorem record_functions_insert_without_guards :
    (∀ d, DecisionEngine.record_decision_events d =
      [DbEvent.insertRow "decision_log"
        ["decision_id", "issue_id", "decision_type", "decision_reason",
         "confidence_at_decision", "decided_at"]] ∧
      (DecisionEngine.record_decision_events d).filter DbEvent.isGuard = []) ∧
    (∀ a, HealingEngine.record_healing_action_events a =
      [DbEvent.insertRow "healing_actions"
        ["action_id", "decision_id", "action_type", "execution_mode",
         "executed_by", "execution_status", "executed_at"]] ∧
      (HealingEngine.record_healing_action_events a).filter DbEvent.isGuard = []) ∧
    SafetyGuards.validate_database_write "INSERT" "decision_log" = .ok () ∧
    SafetyGuards.validate_database_write "INSERT" "healing_actions" = .ok () ∧
    (∀ action_type mode, action_type ∈ SafetyGuards.DANGEROUS_ACTIONS →
      mode ≠ "SIMULATED" →
      ∃ v, SafetyGuards.validate_healing_action action_type mode = .error v) := by
  refine ⟨fun d => ⟨rfl, rfl⟩, fun a => ⟨rfl, rfl⟩, rfl, rfl, fun at_ mode h1 h2 => ?_⟩
  unfold SafetyGuards.validate_healing_action
  rw [if_pos ⟨h1, h2⟩]
  exact ⟨_, rfl⟩

/-- Closed instantiation of `record_functions_insert_without_guards`,
discharging its hypotheses at `KILL_CONNECTION` / `AUTOMATIC`. -/
theorem record_functions_insert_without_guards_witness :
    (DecisionEngine.record_decision_events exampleDecisionOut =
      [DbEvent.insertRow "decision_log"
        ["decision_id", "issue_id", "decision_type", "decision_reason",
         "confidence_at_decision", "decided_at"]] ∧
      (DecisionEngine.record_decision_events exampleDecisionOut).filter
        DbEvent.isGuard = []) ∧
    ("KILL_CONNECTION" ∈ SafetyGuards.DANGEROUS_ACTIONS ∧
     ("AUTOMATIC" : String) ≠ "SIMULATED") ∧
    (∃ v, SafetyGuards.validate_healing_action "KILL_CONNECTION" "AUTOMATIC" =
      .error v) :=
  ⟨record_functions_insert_without_guards.1 exampleDecisionOut,
   ⟨by decide, by decide⟩,
   record_functions_insert_without_guards.2.2.2.2 "KILL_CONNECTION" "AUTOMATIC"
     (by decide) (by decide)⟩

/-- **C3**: `get_rule_for_issue` is total (it is a function into
`HealingRule`, with every raising path of the source caught) and degrades
instead of failing: an unknown issue type yields the synthetic ADMIN_REVIEW
rule with confidence 1.0 whose reason says the unknown type requires manual
analysis, and a conditional rule whose supplied context violates its
threshold (`retry_count >= max_retries` for TRANSACTION_FAILURE,
`timeout_seconds > timeout_threshold` for LOCK_WAIT) yields the synthetic
"conditions not met" ADMIN_REVIEW rule. -/
theorem get_rule_total_and_degrading :
    (∀ s ctx, issueTypeOfString (pyUpper s) = none →
      HealingRulebook.get_rule_for_issue s ctx =
        HealingRulebook.unknownIssueRule s ∧
      (HealingRulebook.get_rule_for_issue s ctx).decision_type = .ADMIN_REVIEW ∧
      (HealingRulebook.get_rule_for_issue s ctx).confidence = 1 ∧
      (HealingRulebook.get_rule_for_issue s ctx).reason =
        "Unknown issue type " ++ sq ++ s ++ sq ++ " requires manual analysis") ∧
    (∀ s ctx, issueTypeOfString (pyUpper s) = some .TRANSACTION_FAILURE →
      ctx.retry_count.getD 0 ≥ HealingRulebook.MAX_RETRY_COUNT →
      HealingRulebook.get_rule_for_issue s (some ctx) =
        HealingRulebook.conditionsNotMetRule .TRANSACTION_FAILURE s) ∧
    (∀ s ctx, issueTypeOfString (pyUpper s) = some .LOCK_WAIT →
      ctx.timeout_seconds.getD 0 > HealingRulebook.LOCK_WAIT_TIMEOUT_THRESHOLD →
      HealingRulebook.get_rule_for_issue s (some ctx) =
        HealingRulebook.conditionsNotMetRule .LOCK_WAIT s) := by
  refine ⟨fun s ctx h => ?_, fun s ctx h hrc => ?_, fun s ctx h hts => ?_⟩
  · have he : HealingRulebook.get_rule_for_issue s ctx =
        HealingRulebook.unknownIssueRule s := by
      unfold HealingRulebook.get_rule_for_issue
      rw [h]
    exact ⟨he, by rw [he]; rfl, by rw [he]; rfl, by rw [he]; rfl⟩
  · unfold HealingRulebook.get_rule_for_issue
    rw [h]
    unfold HealingRulebook.MAX_RETRY_COUNT at hrc
    simp [HealingRulebook.findRule, HealingRulebook.RULES,
      HealingRulebook.check_conditions, HealingRulebook.MAX_RETRY_COUNT, hrc]
  · unfold HealingRulebook.get_rule_for_issue
    rw [h]
    unfold HealingRulebook.LOCK_WAIT_TIMEOUT_THRESHOLD at hts
    simp [HealingRulebook.findRule, HealingRulebook.RULES,
      HealingRulebook.check_conditions, HealingRulebook.LOCK_WAIT_TIMEOUT_THRESHOLD,
      hts, not_lt.mpr hts.le]

/-- Closed instantiation of `get_rule_total_and_degrading`: an unknown
issue type, a TRANSACTION_FAILURE context at the retry limit, and a
lowercase LOCK_WAIT context past the timeout threshold. -/
theorem get_rule_total_and_degrading_witness :
    HealingRulebook.get_rule_for_issue "DISK_FULL" none =
      HealingRulebook.unknownIssueRule "DISK_FULL" ∧
    HealingRulebook.get_rule_for_issue "TRANSACTION_FAILURE"
        (some { retry_count := some 3 }) =
      HealingRulebook.conditionsNotMetRule .TRANSACTION_FAILURE
        "TRANSACTION_FAILURE" ∧
    HealingRulebook.get_rule_for_issue "lock_wait"
        (some { timeout_seconds := some 31 }) =
      HealingRulebook.conditionsNotMetRule .LOCK_WAIT "lock_wait" :=
  ⟨(get_rule_total_and_degrading.1 "DISK_FULL" none (by decide)).1,
   get_rule_total_and_degrading.2.1 "TRANSACTION_FAILURE"
     { retry_count := some 3 } (by decide) (by decide),
   get_rule_total_and_degrading.2.2 "lock_wait"
     { timeout_seconds := some 31 } (by decide) (by decide)⟩

/-- The rollback simulation ignores the ambient generator state (the code
re-seeds from the decision id before drawing) and reads only the decision
id and confidence. -/
lemma rollback_state_indep (M : SimModel) (σ σ' : Nat) (d d' : DecisionRec)
    (hid : d.decision_id = d'.decision_id)
    (hconf : d.confidence_at_decision = d'.confidence_at_decision) :
    HealingEngine.simulate_rollback_transaction M σ d =
      HealingEngine.simulate_rollback_transaction M σ' d' := by
  unfold HealingEngine.simulate_rollback_transaction
  rw [hid, hconf]

/-- The retry simulation's result (status and details) ignores the ambient
generator state and reads only the decision id. -/
lemma retry_fst_indep (M : SimModel) (σ σ' : Nat) (d d' : DecisionRec)
    (hid : d.decision_id = d'.decision_id) :
    (HealingEngine.simulate_retry_operation M σ d).map Prod.fst =
      (HealingEngine.simulate_retry_operation M σ' d').map Prod.fst := by
  unfold HealingEngine.simulate_retry_operation HealingEngine.simulate_retry_body
    HealingEngine.simulate_retry_attempt
  rw [hid]
  split_ifs <;> rfl

/-- **C4**: healing simulation is deterministic in the decision record:
for every action type the simulated status and details are independent of
the ambient random-generator state (so re-running the simulation on the
same decision reproduces them exactly), the ROLLBACK_TRANSACTION outcome
depends only on the decision's id and confidence, and the RETRY_OPERATION
outcome only on the decision's id (through the seeded draw and the MD5
retry count) — on no other source of randomness. -/
theorem simulation_deterministic (M : SimModel) (σ σ' : Nat)
    (ty : ActionType) (d d' : DecisionRec)
    (hid : d.decision_id = d'.decision_id)
    (hconf : d.confidence_at_decision = d'.confidence_at_decision) :
    (HealingEngine.simulate_action M σ ty d).map Prod.fst =
      (HealingEngine.simulate_action M σ' ty d).map Prod.fst ∧
    (HealingEngine.simulate_rollback_transaction M σ d).map Prod.fst =
      (HealingEngine.simulate_rollback_transaction M σ' d').map Prod.fst ∧
    (HealingEngine.simulate_retry_operation M σ d).map Prod.fst =
      (HealingEngine.simulate_retry_operation M σ' d').map Prod.fst := by
  refine ⟨?_, congrArg (Option.map Prod.fst)
    (rollback_state_indep M σ σ' d d' hid hconf),
    retry_fst_indep M σ σ' d d' hid⟩
  cases ty with
  | ROLLBACK_TRANSACTION =>
    exact congrArg (Option.map Prod.fst) (rollback_state_indep M σ σ' d d rfl rfl)
  | RETRY_OPERATION => exact retry_fst_indep M σ σ' d d rfl
  | NONE => rfl
  | KILL_CONNECTION => rfl
  | OPTIMIZE_QUERY => rfl

/-- The trivial instantiation of the abstract randomness model, used only
to instantiate universally quantified theorems at a concrete point. -/
def modelZero : SimModel :=
  { mtSeed := fun n => n
    mtNext := fun s => (0, s)
    md5hex8 := fun _ => 0
    fmt2 := fun _ => ""
    fmtF := fun _ => "" }

/-- A concrete decision row for an AUTO_HEAL DEADLOCK decision. -/
def exampleDecisionRow : DecisionRec :=
  { decision_id := "3f2504e0-4f89-11d3-9a0c-0305e82c3301"
    issue_type := "DEADLOCK"
    confidence_at_decision := some (mkRat 95 100)
    raw_metric_value := none }

/-- Closed instantiation of `simulation_deterministic` at a concrete model,
states 0 and 1, and a concrete decision. -/
theorem simulation_deterministic_witness :
    (HealingEngine.simulate_action modelZero 0 .ROLLBACK_TRANSACTION
        exampleDecisionRow).map Prod.fst =
      (HealingEngine.simulate_action modelZero 1 .ROLLBACK_TRANSACTION
        exampleDecisionRow).map Prod.fst ∧
    (HealingEngine.simulate_rollback_transaction modelZero 0
        exampleDecisionRow).map Prod.fst =
      (HealingEngine.simulate_rollback_transaction modelZero 1
        exampleDecisionRow).map Prod.fst ∧
    (HealingEngine.simulate_retry_operation modelZero 0
        exampleDecisionRow).map Prod.fst =
      (HealingEngine.simulate_retry_operation modelZero 1
        exampleDecisionRow).map Prod.fst :=
  simulation_deterministic modelZero 0 1 .ROLLBACK_TRANSACTION
    exampleDecisionRow exampleDecisionRow rfl rfl


/-- **C8**: the RETRY_OPERATION simulation policy — the simulated prior
retry count is the MD5-derived hash modulo 3 (so bounded 0–2); the retry
simulation runs the branch body at that count; a count at or past
`MAX_RETRY_COUNT = 3` fails with the "Max retries (3) exceeded" detail;
below it, the outcome succeeds exactly when the seeded draw is under
`max(0.5, 0.9 − 0.2·retryCount)`, a successful detail reports the
`2^retryCount` second backoff, and a failed one the doubled next backoff. -/
theorem retry_operation_policy :
    (∀ (M : SimModel) (id : String),
      HealingEngine.get_simulated_retry_count M id = M.md5hex8 id % 3 ∧
      HealingEngine.get_simulated_retry_count M id ≤ 2) ∧
    HealingRulebook.MAX_RETRY_COUNT = 3 ∧
    (∀ (M : SimModel) (σ : Nat) (d : DecisionRec),
      HealingEngine.simulate_retry_operation M σ d =
        HealingEngine.simulate_retry_body M σ
          (HealingEngine.get_simulated_retry_count M d.decision_id) d) ∧
    (∀ (M : SimModel) (σ rc : Nat) (d : DecisionRec),
      (rc : ℤ) ≥ HealingRulebook.MAX_RETRY_COUNT →
      HealingEngine.simulate_retry_body M σ rc d =
        some ({ status := "FAILED"
                details := "SIMULATED: Max retries (3) exceeded - escalating to admin" },
              σ)) ∧
    (∀ (M : SimModel) (σ rc : Nat) (d : DecisionRec) (k : Nat),
      (rc : ℤ) < HealingRulebook.MAX_RETRY_COUNT →
      parseHex (lastN d.decision_id 8) = some k →
      ((M.mtNext (M.mtSeed (k + rc))).1 <
          max (mkRat 5 10) (mkRat 9 10 - (rc : ℚ) * mkRat 2 10) →
        HealingEngine.simulate_retry_body M σ rc d =
          some ({ status := "SUCCESS"
                  details := "SIMULATED: Retry #" ++ toString (rc + 1) ++
                    " successful after " ++ toString (2 ^ rc) ++ "s backoff" },
                (M.mtNext (M.mtSeed (k + rc))).2)) ∧
      (¬ (M.mtNext (M.mtSeed (k + rc))).1 <
          max (mkRat 5 10) (mkRat 9 10 - (rc : ℚ) * mkRat 2 10) →
        HealingEngine.simulate_retry_body M σ rc d =
          some ({ status := "FAILED"
                  details := "SIMULATED: Retry #" ++ toString (rc + 1) ++
                    " failed - will retry with " ++ toString (2 ^ rc * 2) ++
                    "s backoff" },
                (M.mtNext (M.mtSeed (k + rc))).2))) := by
  refine ⟨fun M id => ⟨rfl, ?_⟩, rfl, fun M σ d => rfl,
    fun M σ rc d h => ?_, fun M σ rc d k h hp => ?_⟩
  · unfold HealingEngine.get_simulated_retry_count
    omega
  · unfold HealingEngine.simulate_retry_body
    rw [if_pos h]
    rfl
  · unfold HealingEngine.simulate_retry_body
    rw [if_neg (not_le.mpr h)]
    unfold HealingEngine.simulate_retry_attempt
    rw [hp]
    simp only []
    constructor
    · intro hlt
      split_ifs with hc
      · rfl
      · exact absurd hlt hc
    · intro hge
      split_ifs with hc
      · exact absurd hc hge
      · rfl

/-- A concrete decision row whose id tail parses as hex 0. -/
def exampleRetryRow : DecisionRec :=
  { decision_id := "00000000"
    issue_type := "TRANSACTION_FAILURE"
    confidence_at_decision := some (mkRat 80 100)
    raw_metric_value := none }

/-- Closed instantiation of `retry_operation_policy`: the retry-count bound
at a concrete id, the max-retries branch at count 3, and the success branch
at count 1 with the trivial model (draw 0). -/
theorem retry_operation_policy_witness :
    HealingEngine.get_simulated_retry_count modelZero "00000000" ≤ 2 ∧
    HealingEngine.simulate_retry_body modelZero 7 3 exampleRetryRow =
      some ({ status := "FAILED"
              details := "SIMULATED: Max retries (3) exceeded - escalating to admin" },
            7) ∧
    HealingEngine.simulate_retry_body modelZero 7 1 exampleRetryRow =
      some ({ status := "SUCCESS"
              details := "SIMULATED: Retry #2 successful after 2s backoff" },
            1) :=
  ⟨(retry_operation_policy.1 modelZero "00000000").2,
   retry_operation_policy.2.2.2.1 modelZero 7 3 exampleRetryRow (by decide),
   (retry_operation_policy.2.2.2.2 modelZero 7 1 exampleRetryRow 0
      (by decide) (by rfl)).1
     (by norm_num [modelZero, Rat.mkRat_eq_div])⟩

/-- The Retry detail strings can never coincide with the max-retries
detail: they differ at character index 11. -/
lemma retry_detail_ne (s : String) :
    ("SIMULATED: Retry #" ++ s) ≠
      "SIMULATED: Max retries (3) exceeded - escalating to admin" := by
  obtain ⟨l⟩ := s
  intro h
  have hd : "SIMULATED: Retry #".data ++ l =
      ("SIMULATED: Max retries (3) exceeded - escalating to admin" : String).data :=
    congrArg String.data h
  have h11 : ("SIMULATED: Retry #".data ++ l)[11]? =
      ("SIMULATED: Max retries (3) exceeded - escalating to admin" : String).data[11]? := by
    rw [hd]
  rw [List.getElem?_append_left (by decide)] at h11
  exact absurd h11 (by decide)

/-- Every result the attempt branch of the retry simulation can produce
carries a detail string starting with "SIMULATED: Retry #". -/
lemma simulate_retry_attempt_details (M : SimModel) (σ rc : Nat)
    (d : DecisionRec) (res : SimResult) (σ2 : Nat)
    (h : HealingEngine.simulate_retry_attempt M σ rc d = some (res, σ2)) :
    ∃ t, res.details = "SIMULATED: Retry #" ++ t := by
  unfold HealingEngine.simulate_retry_attempt at h
  cases hp : parseHex (lastN d.decision_id 8) with
  | none => rw [hp] at h; cases h
  | some seed =>
    rw [hp] at h
    simp only [] at h
    split_ifs at h with hc
    · injection h with h1
      injection h1 with hres hs
      subst hres
      exact ⟨toString (rc + 1) ++ (" successful after " ++
        (toString (2 ^ rc) ++ "s backoff")), by simp [String.append_assoc]⟩
    · injection h with h1
      injection h1 with hres hs
      subst hres
      exact ⟨toString (rc + 1) ++ (" failed - will retry with " ++
        (toString (2 ^ rc * 2) ++ "s backoff")), by simp [String.append_assoc]⟩

/-- **C10**: the "max retries exceeded" branch of the retry simulation is
unreachable — the MD5-derived retry count is always in {0, 1, 2}, strictly
below `MAX_RETRY_COUNT = 3`, so `simulate_retry_operation` always takes the
attempt branch and no simulated RETRY_OPERATION result ever carries the
FAILED "Max retries (3) exceeded" detail. -/
theorem max_retries_branch_unreachable (M : SimModel) (σ : Nat)
    (d : DecisionRec) :
    (HealingEngine.get_simulated_retry_count M d.decision_id : ℤ) <
      HealingRulebook.MAX_RETRY_COUNT ∧
    HealingEngine.simulate_retry_operation M σ d =
      HealingEngine.simulate_retry_attempt M σ
        (HealingEngine.get_simulated_retry_count M d.decision_id) d ∧
    ∀ res σ2, HealingEngine.simulate_retry_operation M σ d = some (res, σ2) →
      res.details ≠ "SIMULATED: Max retries (3) exceeded - escalating to admin" := by
  have hlt : (HealingEngine.get_simulated_retry_count M d.decision_id : ℤ) <
      HealingRulebook.MAX_RETRY_COUNT := by
    unfold HealingEngine.get_simulated_retry_count HealingRulebook.MAX_RETRY_COUNT
    omega
  have hbr : HealingEngine.simulate_retry_operation M σ d =
      HealingEngine.simulate_retry_attempt M σ
        (HealingEngine.get_simulated_retry_count M d.decision_id) d := by
    unfold HealingEngine.simulate_retry_operation HealingEngine.simulate_retry_body
    rw [if_neg (not_le.mpr hlt)]
  refine ⟨hlt, hbr, fun res σ2 h => ?_⟩
  rw [hbr] at h
  obtain ⟨t, ht⟩ := simulate_retry_attempt_details M σ _ d res σ2 h
  rw [ht]
  exact retry_detail_ne t

/-- Closed instantiation of `max_retries_branch_unreachable`, discharging
its result hypothesis at the concrete successful retry outcome. -/
theorem max_retries_branch_unreachable_witness :
    ({ status := "SUCCESS"
       details := "SIMULATED: Retry #1 successful after 1s backoff" } :
        SimResult).details ≠
      "SIMULATED: Max retries (3) exceeded - escalating to admin" := by
  have heval : HealingEngine.simulate_retry_operation modelZero 0 exampleRetryRow =
      some ({ status := "SUCCESS"
              details := "SIMULATED: Retry #1 successful after 1s backoff" }, 0) := by
    rw [(max_retries_branch_unreachable modelZero 0 exampleRetryRow).2.1]
    unfold HealingEngine.simulate_retry_attempt
    rw [show parseHex (lastN exampleRetryRow.decision_id 8) = some 0 from rfl]
    simp only []
    rw [if_pos (by norm_num [modelZero, Rat.mkRat_eq_div])]
    rfl
  exact (max_retries_branch_unreachable modelZero 0 exampleRetryRow).2.2 _ 0 heval

/-- The decision records the per-item step yields over a backlog, in
backlog order (items whose step raises or yields `None` contribute
nothing). -/
def decisionOuts (step : IssueRec → Except String (Option DecisionOut))
    (issues : List IssueRec) : List DecisionOut :=
  issues.filterMap (fun i => match step i with
    | .ok (some d) => some d
    | _ => none)

/-- The error messages the decision batch accumulates: one per item whose
step raises, carrying that item's id and the exception text. -/
def decisionErrs (step : IssueRec → Except String (Option DecisionOut))
    (issues : List IssueRec) : List String :=
  issues.filterMap (fun i => match step i with
    | .error e => some ("Error processing issue " ++ i.issue_id ++ ": " ++ e)
    | _ => none)

/-- Closed form of the decision-engine batch loop over any backlog and any
accumulated results. -/
lemma processIssuesLoop_spec (step : IssueRec → Except String (Option DecisionOut))
    (l : List IssueRec) (r : DecisionBatchResults) :
    DecisionEngine.processIssuesLoop step l r =
      { issues_processed := r.issues_processed
        decisions_made := r.decisions_made + (decisionOuts step l).length
        auto_heal_decisions := r.auto_heal_decisions +
          ((decisionOuts step l).filter
            (fun d => d.decision_type = "AUTO_HEAL")).length
        admin_review_decisions := r.admin_review_decisions +
          ((decisionOuts step l).filter
            (fun d => d.decision_type = "ADMIN_REVIEW")).length
        errors := r.errors ++ decisionErrs step l
        decisions := r.decisions ++ decisionOuts step l } := by
  induction l generalizing r with
  | nil =>
    simp [DecisionEngine.processIssuesLoop, decisionOuts, decisionErrs]
  | cons i rest ih =>
    unfold DecisionEngine.processIssuesLoop
    cases hstep : step i with
    | error e =>
      simp only []
      rw [ih]
      simp [decisionOuts, decisionErrs, hstep, List.filterMap_cons]
    | ok od =>
      cases od with
      | none =>
        simp only []
        rw [ih]
        simp [decisionOuts, decisionErrs, hstep, List.filterMap_cons]
      | some dec =>
        simp only []
        rw [ih]
        simp only [decisionOuts, decisionErrs, List.filterMap_cons, hstep]
        by_cases hAH : dec.decision_type = "AUTO_HEAL" <;>
          by_cases hAR : dec.decision_type = "ADMIN_REVIEW" <;>
            simp [hAH, hAR, List.filter_cons, Nat.add_comm, Nat.add_assoc,
              Nat.add_left_comm]

/-- The action records the per-item step yields over a decision backlog. -/
def healingOuts (step : DecisionRec → Except String (Option ActionRec))
    (decisions : List DecisionRec) : List ActionRec :=
  decisions.filterMap (fun d => match step d with
    | .ok (some a) => some a
    | _ => none)

/-- The error messages the healing batch accumulates: one per decision
whose step raises, carrying that decision's id and the exception text. -/
def healingErrs (step : DecisionRec → Except String (Option ActionRec))
    (decisions : List DecisionRec) : List String :=
  decisions.filterMap (fun d => match step d with
    | .error e => some ("Error processing decision " ++ d.decision_id ++ ": " ++ e)
    | _ => none)

/-- Closed form of the healing-engine batch loop over any backlog and any
accumulated results. -/
lemma processDecisionsLoop_spec
    (step : DecisionRec → Except String (Option ActionRec))
    (l : List DecisionRec) (r : HealingBatchResults) :
    HealingEngine.processDecisionsLoop step l r =
      { decisions_processed := r.decisions_processed
        actions_executed := r.actions_executed + (healingOuts step l).length
        successful_actions := r.successful_actions +
          ((healingOuts step l).filter
            (fun a => a.execution_status = ExecutionStatus.SUCCESS.value)).length
        failed_actions := r.failed_actions +
          ((healingOuts step l).filter
            (fun a => ¬ a.execution_status = ExecutionStatus.SUCCESS.value)).length
        errors := r.errors ++ healingErrs step l
        actions := r.actions ++ healingOuts step l } := by
  induction l generalizing r with
  | nil =>
    simp [HealingEngine.processDecisionsLoop, healingOuts, healingErrs]
  | cons dcs rest ih =>
    unfold HealingEngine.processDecisionsLoop
    cases hstep : step dcs with
    | error e =>
      simp only []
      rw [ih]
      simp [healingOuts, healingErrs, hstep, List.filterMap_cons]
    | ok oa =>
      cases oa with
      | none =>
        simp only []
        rw [ih]
        simp [healingOuts, healingErrs, hstep, List.filterMap_cons]
      | some act =>
        simp only []
        rw [ih]
        simp only [healingOuts, healingErrs, List.filterMap_cons, hstep]
        by_cases hS : act.execution_status = ExecutionStatus.SUCCESS.value <;>
          simp [hS, List.filter_cons, Nat.add_comm, Nat.add_assoc,
            Nat.add_left_comm]

/-- The review records the per-item step yields over a decision backlog. -/
def reviewOuts (step : DecisionRec → Except String (Option ReviewRec))
    (decisions : List DecisionRec) : List ReviewRec :=
  decisions.filterMap (fun d => match step d with
    | .ok (some rv) => some rv
    | _ => none)

/-- The error messages the admin-review batch accumulates: one per
decision whose step raises, carrying that decision's id and the exception
text. -/
def reviewErrs (step : DecisionRec → Except String (Option ReviewRec))
    (decisions : List DecisionRec) : List String :=
  decisions.filterMap (fun d => match step d with
    | .error e => some ("Error processing decision " ++ d.decision_id ++ ": " ++ e)
    | _ => none)

/-- Closed form of the admin-review batch loop over any backlog and any
accumulated results. -/
lemma processReviewsLoop_spec
    (step : DecisionRec → Except String (Option ReviewRec))
    (l : List DecisionRec) (r : ReviewBatchResults) :
    AdminReviewEngine.processReviewsLoop step l r =
      { decisions_processed := r.decisions_processed
        reviews_created := r.reviews_created + (reviewOuts step l).length
        high_priority_reviews := r.high_priority_reviews +
          ((reviewOuts step l).filter (fun rv => rv.priority = "HIGH")).length
        errors := r.errors ++ reviewErrs step l
        reviews := r.reviews ++ reviewOuts step l } := by
  induction l generalizing r with
  | nil =>
    simp [AdminReviewEngine.processReviewsLoop, reviewOuts, reviewErrs]
  | cons dcs rest ih =>
    unfold AdminReviewEngine.processReviewsLoop
    cases hstep : step dcs with
    | error e =>
      simp only []
      rw [ih]
      simp [reviewOuts, reviewErrs, hstep, List.filterMap_cons]
    | ok orv =>
      cases orv with
      | none =>
        simp only []
        rw [ih]
        simp [reviewOuts, reviewErrs, hstep, List.filterMap_cons]
      | some rv =>
        simp only []
        rw [ih]
        simp only [reviewOuts, reviewErrs, List.filterMap_cons, hstep]
        by_cases hH : rv.priority = "HIGH" <;>
          simp [hH, List.filter_cons, Nat.add_comm, Nat.add_assoc,
            Nat.add_left_comm]

/-- **C9**: the batch processors are total and isolate per-item failures:
for every per-item step and every backlog, the decision batch returns a
results record counting the whole backlog, with exactly one error entry
(naming the item) for each item whose step raises, and with every
non-raising item's decision still produced regardless of failures earlier
in the backlog; likewise for the healing and admin-review batches. -/
theorem batch_partial_failure_isolation :
    (∀ (step : IssueRec → Except String (Option DecisionOut))
        (issues : List IssueRec),
      (DecisionEngine.process_new_issues step issues).issues_processed =
        issues.length ∧
      (DecisionEngine.process_new_issues step issues).errors =
        decisionErrs step issues ∧
      (DecisionEngine.process_new_issues step issues).decisions =
        decisionOuts step issues ∧
      (DecisionEngine.process_new_issues step issues).decisions_made =
        (decisionOuts step issues).length) ∧
    (∀ (step : DecisionRec → Except String (Option ActionRec))
        (decisions : List DecisionRec),
      (HealingEngine.process_auto_heal_decisions step decisions).decisions_processed =
        decisions.length ∧
      (HealingEngine.process_auto_heal_decisions step decisions).errors =
        healingErrs step decisions ∧
      (HealingEngine.process_auto_heal_decisions step decisions).actions =
        healingOuts step decisions ∧
      (HealingEngine.process_auto_heal_decisions step decisions).actions_executed =
        (healingOuts step decisions).length) ∧
    (∀ (step : DecisionRec → Except String (Option ReviewRec))
        (decisions : List DecisionRec),
      (AdminReviewEngine.process_admin_review_decisions step decisions).decisions_processed =
        decisions.length ∧
      (AdminReviewEngine.process_admin_review_decisions step decisions).errors =
        reviewErrs step decisions ∧
      (AdminReviewEngine.process_admin_review_decisions step decisions).reviews =
        reviewOuts step decisions ∧
      (AdminReviewEngine.process_admin_review_decisions step decisions).reviews_created =
        (reviewOuts step decisions).length) := by
  refine ⟨fun step issues => ?_, fun step decisions => ?_, fun step decisions => ?_⟩
  · unfold DecisionEngine.process_new_issues
    rw [processIssuesLoop_spec]
    simp
  · unfold HealingEngine.process_auto_heal_decisions
    rw [processDecisionsLoop_spec]
    simp
  · unfold AdminReviewEngine.process_admin_review_decisions
    rw [processReviewsLoop_spec]
    simp

/-- Closed instantiation of `rulebook_startup_invariant`: the
characterisation of `validateRulebookOf` applied to the shipped rules. -/
theorem rulebook_startup_invariant_witness :
    validateRulebookOf HealingRulebook.RULES = .ok () ↔
      ((∀ t : IssueType, ∃ r ∈ HealingRulebook.RULES,
          r.issue_type = RuleIssueField.known t) ∧
       (∀ r ∈ HealingRulebook.RULES, 0 ≤ r.confidence ∧ r.confidence ≤ 1) ∧
       (∀ r ∈ HealingRulebook.RULES, r.decision_type = DecisionType.AUTO_HEAL →
          r.execution_mode = ExecutionMode.SIMULATED)) :=
  rulebook_startup_invariant.2.2 HealingRulebook.RULES

/-- Closed instantiation of `determine_priority_thresholds` at a DEADLOCK
issue with metric 100. -/
theorem determine_priority_thresholds_witness :
    AdminReviewEngine.determine_priority "DEADLOCK" (some 100) =
      priorityClaim "DEADLOCK" ((some (100 : ℚ)).getD 0) :=
  determine_priority_thresholds.1 "DEADLOCK" (some 100)

/-- Closed instantiation of `validate_database_write_allowlist` at the
disallowed pair `('UPDATE', 'decision_log')`. -/
theorem validate_database_write_allowlist_witness :
    SafetyGuards.validate_database_write "UPDATE" "decision_log" = .ok () ↔
      (("decision_log" = "decision_log" ∧ "UPDATE" = "INSERT") ∨
       ("decision_log" = "healing_actions" ∧ "UPDATE" = "INSERT") ∨
       ("decision_log" = "admin_reviews" ∧
         ("UPDATE" = "INSERT" ∨ "UPDATE" = "UPDATE")) ∨
       ("decision_log" = "learning_history" ∧ "UPDATE" = "INSERT")) :=
  validate_database_write_allowlist.1 "UPDATE" "decision_log"

/-- Closed instantiation of `os_command_and_direct_execution_guards` at a
forbidden direct-execution operation. -/
theorem os_and_direct_execution_guards_witness :
    SafetyGuards.validate_direct_execution "DIRECT_KILL" = .ok () ↔
      "DIRECT_KILL" ∉ SafetyGuards.forbiddenOperations :=
  os_command_and_direct_execution_guards.2 "DIRECT_KILL"

/-- A concrete issue row. -/
def exampleIssueRec : IssueRec :=
  { issue_id := "issue-1"
    issue_type := "DEADLOCK"
    raw_metric_value := none }

/-- Closed instantiation of `batch_partial_failure_isolation` at a
one-element backlog whose step raises. -/
theorem batch_partial_failure_isolation_witness :
    (DecisionEngine.process_new_issues (fun _ => .error "boom")
        [exampleIssueRec]).errors =
      decisionErrs (fun _ => .error "boom") [exampleIssueRec] :=
  (batch_partial_failure_isolation.1 (fun _ => .error "boom")
    [exampleIssueRec]).2.1
